import Mathlib

/-!
Verification development for a Rust WebSocket relay service
(`src/config.rs`, `src/event_parser.rs`, `src/solana_client.rs`,
`src/ws_server.rs`, `src/main.rs`).

The service connects to an upstream Solana RPC WebSocket, normalizes
`programNotification` frames for a fixed target program id into
`TokenEvent` JSON, broadcasts results over a bounded tokio broadcast
channel of capacity 1000, and serves them to WebSocket clients.

Each Rust function relevant to the claims is shallowly embedded below:
JSON parsing by the external `serde_json` library is modelled as an
oracle `Option Json` (parse success or failure); panics are modelled as
`Except.error`; the current timestamp (`Utc::now()`) is an explicit
parameter; asynchronous interleavings are modelled as explicit event
traces fed to step functions.
-/

namespace PumpWs

/-- Model of `serde_json::Value` (floats omitted: integers suffice for the
fields this service reads; `as_u64` on a float returns `None` upstream and
`none` here via absence). -/
inductive Json where
  | null
  | bool (b : Bool)
  | num (n : Int)
  | str (s : String)
  | arr (elems : List Json)
  | obj (fields : List (String × Json))

/-- `serde_json::Value::index` with a string key: field lookup on objects,
`Null` for missing keys and for non-objects. -/
def Json.index (j : Json) (k : String) : Json :=
  match j with
  | .obj fields =>
    match fields.find? (fun p => p.1 == k) with
    | some p => p.2
    | none => .null
  | _ => .null

/-- `serde_json::Value::as_str`. -/
def Json.asStr : Json → Option String
  | .str s => some s
  | _ => none

/-- `serde_json::Value::as_u64`: integer representable as an unsigned
64-bit value. -/
def Json.asU64 : Json → Option Nat
  | .num n => if 0 ≤ n ∧ n < 18446744073709551616 then some n.toNat else none
  | _ => none

/-- `serde_json::Value::as_object`, yielding the field list. -/
def Json.asObject : Json → Option (List (String × Json))
  | .obj fields => some fields
  | _ => none

/-- `serde_json::Map` indexing (`account["owner"]` in `parse_event`):
unlike `Value` indexing it PANICS when the key is absent
("no entry found for key"). The panic is modelled as `Except.error`. -/
def mapIndex (fields : List (String × Json)) (k : String) : Except String Json :=
  match fields.find? (fun p => p.1 == k) with
  | some p => .ok p.2
  | none => .error "no entry found for key"

/-- Rust byte-slicing `&s[..n]` on a UTF-8 string, on the character list:
consumes characters while their cumulated UTF-8 size stays within `n`;
panics (modelled as `Except.error`) when the string is shorter than `n`
bytes or byte `n` is not a character boundary. -/
def rustByteSliceGo : Nat → List Char → Except String (List Char)
  | 0, _ => .ok []
  | Nat.succ m, [] => .error (toString (Nat.succ m) ++ " byte index out of bounds")
  | Nat.succ m, c :: cs =>
    if c.utf8Size ≤ Nat.succ m then
      match rustByteSliceGo (Nat.succ m - c.utf8Size) cs with
      | .ok tail => .ok (c :: tail)
      | .error e => .error e
    else .error "byte index is not a char boundary"

/-- Rust `&s[..n]` as a `String` result. -/
def rustByteSlice (s : String) (n : Nat) : Except String String :=
  match rustByteSliceGo n s.data with
  | .ok cs => .ok (String.mk cs)
  | .error e => .error e

/-! ### Data model from `event_parser.rs` -/

structure TokenDetails where
  mint_address : String
  name : String
  symbol : String
  creator : String
  supply : Nat
  decimals : Nat
deriving DecidableEq

structure PumpData where
  bonding_curve : String
  virtual_sol_reserves : Nat
  virtual_token_reserves : Nat
deriving DecidableEq

structure TokenEvent where
  event_type : String
  timestamp : String
  transaction_signature : String
  token : TokenDetails
  pump_data : PumpData
deriving DecidableEq

/-- Lower-case hexadecimal digit. -/
def hexDigit (n : Nat) : Char :=
  if n < 10 then Char.ofNat (48 + n) else Char.ofNat (87 + n)

/-- `serde_json` string-character escaping. -/
def escapeJsonChar (c : Char) : String :=
  if c = '"' then "\\\""
  else if c = '\\' then "\\\\"
  else if c = '\n' then "\\n"
  else if c = '\r' then "\\r"
  else if c = '\t' then "\\t"
  else if c = Char.ofNat 8 then "\\b"
  else if c = Char.ofNat 12 then "\\f"
  else if c.toNat < 32 then "\\u00" ++ String.mk [hexDigit (c.toNat / 16), hexDigit (c.toNat % 16)]
  else String.mk [c]

/-- `serde_json` string serialization. -/
def escapeJsonString (s : String) : String :=
  "\"" ++ String.join (s.data.map escapeJsonChar) ++ "\""

/-- `serde_json::to_string` of `TokenDetails` (struct field order). -/
def serializeTokenDetails (t : TokenDetails) : String :=
  "\x7b\"mint_address\":" ++ escapeJsonString t.mint_address
    ++ ",\"name\":" ++ escapeJsonString t.name
    ++ ",\"symbol\":" ++ escapeJsonString t.symbol
    ++ ",\"creator\":" ++ escapeJsonString t.creator
    ++ ",\"supply\":" ++ toString t.supply
    ++ ",\"decimals\":" ++ toString t.decimals ++ "\x7d"

/-- `serde_json::to_string` of `PumpData` (struct field order). -/
def serializePumpData (p : PumpData) : String :=
  "\x7b\"bonding_curve\":" ++ escapeJsonString p.bonding_curve
    ++ ",\"virtual_sol_reserves\":" ++ toString p.virtual_sol_reserves
    ++ ",\"virtual_token_reserves\":" ++ toString p.virtual_token_reserves ++ "\x7d"

/-- `serde_json::to_string` of `TokenEvent` (struct field order). -/
def serializeTokenEvent (e : TokenEvent) : String :=
  "\x7b\"event_type\":" ++ escapeJsonString e.event_type
    ++ ",\"timestamp\":" ++ escapeJsonString e.timestamp
    ++ ",\"transaction_signature\":" ++ escapeJsonString e.transaction_signature
    ++ ",\"token\":" ++ serializeTokenDetails e.token
    ++ ",\"pump_data\":" ++ serializePumpData e.pump_data ++ "\x7d"

/-- The fixed pump.fun target program id from `event_parser.rs` /
`solana_client.rs`. -/
def pumpFunProgramId : String := "6EF8rrecthR5Dkzon8Nwu78hRvfCKubJ14M5uBEwF6P"

/-- The `TokenEvent` built by `extract_pump_fun_account_data` from the
current timestamp `now`, the 8-byte pubkey slice `p8`, the pubkey `pk`
and the slot. -/
def mkTokenEvent (now p8 pk : String) (slot : Nat) : TokenEvent :=
  { event_type := "token_created"
    timestamp := now
    transaction_signature := p8 ++ "_" ++ toString slot
    token :=
      { mint_address := pk
        name := "Token_" ++ p8
        symbol := "MTK"
        creator := "DEF456..."
        supply := 1000000000
        decimals := 6 }
    pump_data :=
      { bonding_curve := "GHI789..."
        virtual_sol_reserves := 30000000000
        virtual_token_reserves := 1073000000000000 } }

/-- `extract_pump_fun_account_data` from `event_parser.rs`: slices the
first 8 bytes of the pubkey (`pubkey[..8]`, which panics when out of
bounds — modelled as `Except.error`), builds the mock `TokenEvent` and
serializes it. The `account` map parameter is unused by the Rust body. -/
def extract_pump_fun_account_data (now pk : String) (account : List (String × Json))
    (slot : Nat) : Except String (Option String) :=
  match rustByteSlice pk 8 with
  | .error e => .error e
  | .ok p8 =>
    let _ := account
    .ok (some (serializeTokenEvent (mkTokenEvent now p8 pk slot)))

/-- `parse_event` from `event_parser.rs`. The `raw` argument is the
outcome of `serde_json::from_str` on the raw message (`none` = parse
failure, handled by `.ok()?` as returning `None`). `now` is the
timestamp `Utc::now().to_rfc3339()` read inside
`extract_pump_fun_account_data`. `Except.error` models a Rust panic. -/
def parse_event (now : String) (raw : Option Json) : Except String (Option String) :=
  match raw with
  | none => .ok none
  | some parsed =>
    match (Json.index parsed "method").asStr with
    | some m =>
      if m = "programNotification" then
        match (Json.index (Json.index (Json.index (Json.index parsed "params") "result") "value") "pubkey").asStr with
        | some pubkey =>
          match (Json.index (Json.index (Json.index (Json.index parsed "params") "result") "context") "slot").asU64 with
          | some slot =>
            match (Json.index (Json.index (Json.index (Json.index parsed "params") "result") "value") "account").asObject with
            | some account =>
              match mapIndex account "owner" with
              | .error e => .error e
              | .ok ownerVal =>
                match ownerVal.asStr with
                | some owner =>
                  if owner = pumpFunProgramId then
                    extract_pump_fun_account_data now pubkey account slot
                  else .ok none
                | none => .ok none
            | none => .ok none
          | none => .ok none
        | none => .ok none
      else .ok none
    | none => .ok none

/-! ### `config.rs` -/

/-- Rust `str::parse::<u16>`: optional leading `+`, then one or more
ASCII digits, value at most 65535. -/
def parseU16 (s : String) : Option Nat :=
  let digits := match s.data with
    | '+' :: rest => rest
    | cs => cs
  if digits.isEmpty then none
  else if digits.all Char.isDigit then
    let v := digits.foldl (fun a c => a * 10 + (c.toNat - 48)) 0
    if v ≤ 65535 then some v else none
  else none

structure Config where
  solana_rpc_ws : String
  server_port : Nat
deriving DecidableEq

/-- `Config::from_env` from `config.rs`, over an environment oracle.
`Except.error` models the panics of `.expect(...)` (missing
`SOLANA_RPC_WS`) and `.unwrap()` (unparsable `SERVER_PORT`). -/
def Config.from_env (env : String → Option String) : Except String Config :=
  match env "SOLANA_RPC_WS" with
  | none => .error "SOLANA_RPC_WS must be set"
  | some url =>
    match parseU16 ((env "SERVER_PORT").getD "8765") with
    | none => .error "called Result::unwrap() on an Err value: ParseIntError"
    | some p => .ok { solana_rpc_ws := url, server_port := p }


/-! ### Concrete frames and environments used in the theorems -/

/-- The example frame from the spec: a `programNotification` for pubkey
`ABCDEFGH1234` at slot 100 owned by the target program. -/
def exampleFrame : Json :=
  .obj [("method", .str "programNotification"),
        ("params", .obj [("result", .obj [
           ("context", .obj [("slot", .num 100)]),
           ("value", .obj [
              ("pubkey", .str "ABCDEFGH1234"),
              ("account", .obj [("owner", .str "6EF8rrecthR5Dkzon8Nwu78hRvfCKubJ14M5uBEwF6P")])])])])]

/-- A `programNotification` frame whose account object has no `owner`
key at all. -/
def frameMissingOwner : Json :=
  .obj [("method", .str "programNotification"),
        ("params", .obj [("result", .obj [
           ("context", .obj [("slot", .num 1)]),
           ("value", .obj [
              ("pubkey", .str "X"),
              ("account", .obj [])])])])]

/-- A matching-owner `programNotification` frame whose pubkey `AB` is
shorter than 8 bytes. -/
def frameShortPubkey : Json :=
  .obj [("method", .str "programNotification"),
        ("params", .obj [("result", .obj [
           ("context", .obj [("slot", .num 2)]),
           ("value", .obj [
              ("pubkey", .str "AB"),
              ("account", .obj [("owner", .str "6EF8rrecthR5Dkzon8Nwu78hRvfCKubJ14M5uBEwF6P")])])])])]

/-- A matching-owner `programNotification` frame whose pubkey `XY` is
shorter than 8 bytes (used for the Connector claim). -/
def frameShortPubkey2 : Json :=
  .obj [("method", .str "programNotification"),
        ("params", .obj [("result", .obj [
           ("context", .obj [("slot", .num 5)]),
           ("value", .obj [
              ("pubkey", .str "XY"),
              ("account", .obj [("owner", .str "6EF8rrecthR5Dkzon8Nwu78hRvfCKubJ14M5uBEwF6P")])])])])]

/-- Environment with no variables set. -/
def envEmpty : String → Option String := fun _ => none

/-- Environment with the upstream URL set and an unparsable port. -/
def envBadPort : String → Option String :=
  fun k => if k = "SOLANA_RPC_WS" then some "ws://example" else some "notaport"

/-- Environment with the upstream URL set and no port. -/
def envNoPort : String → Option String :=
  fun k => if k = "SOLANA_RPC_WS" then some "ws://example" else none

/-! ### `ws_server.rs`: accept loop and connection counter

`start_ws_server` assigns `connection_id := CONNECTION_COUNT.fetch_add(1)`
on each accept; `handle_client_connection` runs
`CONNECTION_COUNT.fetch_sub(1)` at its end — but returns early, without
the decrement, when the WebSocket handshake (`accept_async`) fails.
The machine below replays a sequentialized trace of these three
lifecycle events. -/

inductive SrvEvent where
  /-- `listener.accept()` succeeds: `fetch_add(1)` returns the old value
  as the `connection_id`; a client task is spawned. -/
  | accept
  /-- a client task whose handshake succeeded exits: `fetch_sub(1)`. -/
  | clientExit
  /-- a client task whose handshake failed exits: early `return`,
  no `fetch_sub`. -/
  | handshakeFailExit
deriving DecidableEq

structure SrvState where
  /-- value of the `CONNECTION_COUNT` atomic. -/
  counter : Nat
  /-- `connection_id`s assigned so far, in accept order. -/
  ids : List Nat
deriving DecidableEq

def srvStep (s : SrvState) : SrvEvent → SrvState
  | .accept => { counter := s.counter + 1, ids := s.ids ++ [s.counter] }
  | .clientExit => { s with counter := s.counter - 1 }
  | .handshakeFailExit => s

def srvRun (evs : List SrvEvent) : SrvState :=
  evs.foldl srvStep { counter := 0, ids := [] }

/-- A trace is realizable when every exit event is matched by an earlier
accept whose task is still live. -/
def validFrom (live : Nat) : List SrvEvent → Bool
  | [] => true
  | .accept :: r => validFrom (live + 1) r
  | .clientExit :: r => live != 0 && validFrom (live - 1) r
  | .handshakeFailExit :: r => live != 0 && validFrom (live - 1) r

def validTrace (evs : List SrvEvent) : Bool := validFrom 0 evs

/-! ### Broadcast Hub and the per-client receive loop (`main.rs`,
`ws_server.rs`)

`main.rs` creates `broadcast::channel(1000)`. A tokio broadcast receiver
whose backlog exceeds the capacity is repositioned to the oldest
retained message and its `recv()` returns `Err(Lagged(_))`; the client
loop `while let Ok(message) = rx.recv().await` therefore EXITS on lag.
The machine interleaves producer publishes with the receives of one
subscriber; message payloads are tracked by publish index. -/

def hubCapacity : Nat := 1000

structure SubState where
  /-- total number of messages ever published. -/
  total : Nat
  /-- index of the next message this subscriber would receive. -/
  pos : Nat
  /-- the client delivery loop has exited. -/
  exited : Bool
  /-- indices of messages delivered to the client, in order. -/
  delivered : List Nat
deriving DecidableEq

inductive HubEvent where
  | publish
  | recv
deriving DecidableEq

def subStep (cap : Nat) (s : SubState) : HubEvent → SubState
  | .publish => { s with total := s.total + 1 }
  | .recv =>
    if s.exited then s
    else if s.total ≤ s.pos then s
    else if cap < s.total - s.pos then
      { s with pos := s.total - cap, exited := true }
    else
      { s with pos := s.pos + 1, delivered := s.delivered ++ [s.pos] }

def subRun (cap : Nat) (evs : List HubEvent) : SubState :=
  evs.foldl (subStep cap) { total := 0, pos := 0, exited := false, delivered := [] }

/-! ### Per-client handler (`handle_client_connection`)

Inputs: the handshake outcome, an oracle `sends : Nat → Bool` giving the
outcome of the n-th `write.send` on this socket (index 0 is the welcome
message), and the list of messages the Hub delivers to the receiver of this client
before it closes. -/

/-- The welcome payload of `ws_server.rs` (`serde_json::json!` objects
serialize with keys in alphabetical order). -/
def welcomeJson (id : Nat) : String :=
  "\x7b\"connection_id\":" ++ toString id
    ++ ",\"message\":\"Connected to Pump.fun WebSocket Service\",\"type\":\"connection_established\"\x7d"

structure HandlerRes where
  /-- payloads passed to `write.send`, in order attempted. -/
  attempts : List String
  /-- relayed messages whose send succeeded. -/
  delivered : List String
  /-- the welcome send succeeded. -/
  welcomeOk : Bool
  /-- final value of `message_count` (incremented on each `rx.recv`
  before the send attempt). -/
  message_count : Nat
  /-- `CONNECTION_COUNT.fetch_sub(1)` was reached. -/
  decremented : Bool
deriving DecidableEq

/-- The relay loop of `handle_client_connection`: sends each received
message in turn, breaking on the first send failure. Returns the
attempted payloads, the delivered payloads and the `message_count`. -/
def relayLoop (sends : Nat → Bool) : Nat → List String → List String × List String × Nat
  | _, [] => ([], [], 0)
  | k, m :: rest =>
    if sends k then
      let r := relayLoop sends (k + 1) rest
      (m :: r.1, m :: r.2.1, r.2.2 + 1)
    else ([m], [], 1)

/-- `handle_client_connection` from `ws_server.rs`: on handshake failure
it returns at once (no sends, no decrement); otherwise it sends the
welcome (continuing even when that send fails, only a warning is
logged), runs the relay loop, then decrements the counter. -/
def handle_client_connection (id : Nat) (handshakeOk : Bool) (sends : Nat → Bool)
    (msgs : List String) : HandlerRes :=
  if handshakeOk then
    let r := relayLoop sends 1 msgs
    { attempts := welcomeJson id :: r.1
      delivered := r.2.1
      welcomeOk := sends 0
      message_count := r.2.2
      decremented := true }
  else
    { attempts := [], delivered := [], welcomeOk := false, message_count := 0
      decremented := false }

/-! ### Upstream Connector (`solana_client.rs`)

`solana_event_listener` loops forever: connect (on failure sleep 5 s and
retry), send the subscription (on failure `continue`, i.e. reconnect
with no delay), then read frames until a read error or stream end
(reconnect with no delay). Each text frame is fed to `parse_event`; a
`some` result is published, otherwise the raw text is published
unchanged; non-text frames are ignored. A panic inside `parse_event`
aborts the whole task (it is inside `tokio::spawn`), so nothing further
runs. -/

inductive UpAction where
  | connectAttempt
  | connectFailLog
  | sleep (secs : Nat)
  | sendSub
  | subFailLog
  | publish (m : String)
  | readErrLog
  | reconnectLog
  | taskPanic (e : String)
deriving DecidableEq

inductive ReadItem where
  /-- a text frame: raw text plus the `serde_json::from_str` oracle for it. -/
  | text (raw : String) (parsed : Option Json)
  | nonText

inductive ReadEnd where
  | readErr
  | streamEnd
deriving DecidableEq

inductive ConnOutcome where
  | connectErr
  | subSendErr
  | session (items : List ReadItem) (ending : ReadEnd)

/-- The actions of the read loop for a list of inbound frames, plus the panic
message when `parse_event` panicked (which truncates processing). -/
def processItems (now : String) : List ReadItem → List UpAction × Option String
  | [] => ([], none)
  | .nonText :: rest => processItems now rest
  | .text raw parsed :: rest =>
    match parse_event now parsed with
    | .error e => ([.taskPanic e], some e)
    | .ok (some p) =>
      let r := processItems now rest
      (.publish p :: r.1, r.2)
    | .ok none =>
      let r := processItems now rest
      (.publish raw :: r.1, r.2)

/-- The action trace of the Connector for a script of connection outcomes. -/
def connectorRun (now : String) : List ConnOutcome → List UpAction
  | [] => []
  | .connectErr :: rest =>
    .connectAttempt :: .connectFailLog :: .sleep 5 :: connectorRun now rest
  | .subSendErr :: rest =>
    .connectAttempt :: .sendSub :: .subFailLog :: connectorRun now rest
  | .session items ending :: rest =>
    let r := processItems now items
    match r.2 with
    | some _ => .connectAttempt :: .sendSub :: r.1
    | none =>
      .connectAttempt :: .sendSub :: r.1
        ++ (match ending with
            | .readErr => [UpAction.readErrLog, .reconnectLog]
            | .streamEnd => [UpAction.reconnectLog])
        ++ connectorRun now rest

/-- The handling by the Connector of one inbound text frame in isolation:
the (at most one) message published to the Hub for it, or the panic. -/
def processTextFrame (now raw : String) (parsed : Option Json) : Except String (List String) :=
  match parse_event now parsed with
  | .error e => .error e
  | .ok (some p) => .ok [p]
  | .ok none => .ok [raw]

end PumpWs

namespace PumpWs

/-! ### Helper lemmas -/

theorem srvFold_no_clientExit (evs : List SrvEvent) (s : SrvState)
    (h : SrvEvent.clientExit ∉ evs) :
    evs.foldl srvStep s =
      { counter := s.counter + evs.count .accept,
        ids := s.ids ++ List.range' s.counter (evs.count .accept) } := by
  induction evs generalizing s with
  | nil => simp
  | cons e rest ih =>
    have hrest : SrvEvent.clientExit ∉ rest := fun hm => h (List.mem_cons_of_mem _ hm)
    cases e with
    | accept =>
      rw [List.foldl_cons,
        show srvStep s .accept = { counter := s.counter + 1, ids := s.ids ++ [s.counter] } from rfl,
        ih _ hrest]
      simp [List.count_cons, List.range'_succ, SrvState.mk.injEq]
      omega
    | clientExit => exact absurd (List.mem_cons_self _ _) h
    | handshakeFailExit =>
      rw [List.foldl_cons, show srvStep s .handshakeFailExit = s from rfl, ih _ hrest]
      simp [List.count_cons]
  
theorem subRun_publishes (cap n : Nat) (s : SubState) :
    (List.replicate n HubEvent.publish).foldl (subStep cap) s
      = { s with total := s.total + n } := by
  induction n generalizing s with
  | zero => rfl
  | succ k ih =>
    rw [List.replicate_succ, List.foldl_cons,
      show subStep cap s .publish = { s with total := s.total + 1 } from rfl, ih]
    congr 1
    show s.total + 1 + k = s.total + (k + 1)
    omega

theorem relayLoop_attempts_take (sends : Nat → Bool) :
    ∀ (msgs : List String) (k : Nat),
      ∃ n, n ≤ msgs.length ∧ (relayLoop sends k msgs).1 = msgs.take n := by
  intro msgs
  induction msgs with
  | nil => intro k; exact ⟨0, by simp, rfl⟩
  | cons m rest ih =>
    intro k
    by_cases h : sends k = true
    · obtain ⟨n, hn, he⟩ := ih (k + 1)
      refine ⟨n + 1, by simpa using hn, ?_⟩
      simp [relayLoop, h, he]
    · refine ⟨1, by simp, ?_⟩
      simp [relayLoop, h]

theorem processItems_no_sleep (now : String) :
    ∀ (items : List ReadItem) (a : UpAction),
      a ∈ (processItems now items).1 → ∀ n, a ≠ UpAction.sleep n := by
  intro items
  induction items with
  | nil => intro a ha; simp [processItems] at ha
  | cons it rest ih =>
    intro a ha n
    cases it with
    | nonText => exact ih a (by simpa [processItems] using ha) n
    | text raw parsed =>
      simp only [processItems] at ha
      cases hpe : parse_event now parsed with
      | error e =>
        rw [hpe] at ha
        simp at ha
        subst ha
        simp
      | ok o =>
        rw [hpe] at ha
        cases o with
        | some p =>
          simp at ha
          rcases ha with ha | ha
          · subst ha; simp
          · exact ih a ha n
        | none =>
          simp at ha
          rcases ha with ha | ha
          · subst ha; simp
          · exact ih a ha n

end PumpWs

namespace PumpWs

/-- C1 counterexample: on the realizable trace accept, client exit,
accept, the server assigns connection_id 0 twice — because
`connection_id` is drawn from the same `CONNECTION_COUNT` atomic that
client exits decrement — so connection_ids are neither monotonically
increasing nor free of reuse. -/
theorem c1_connection_id_reuse_counterexample :
    validTrace [SrvEvent.accept, .clientExit, .accept] = true
    ∧ (srvRun [SrvEvent.accept, .clientExit, .accept]).ids = [0, 0]
    ∧ ¬ (srvRun [SrvEvent.accept, .clientExit, .accept]).ids.Nodup
    ∧ ¬ (srvRun [SrvEvent.accept, .clientExit, .accept]).ids.Pairwise (· < ·) := by
  decide

/-- C1 (amended): the connection_id assigned on accept is the current
value of the shared active-connection counter, so in any run in which no
post-handshake client task has yet exited the assigned ids are exactly
0, 1, 2, … — fresh, strictly increasing and never reused; once a client
task exits after a successful handshake, its id value can be reassigned
to a later connection. -/
theorem c1_connection_ids_amended (evs : List SrvEvent)
    (h : SrvEvent.clientExit ∉ evs) :
    (srvRun evs).ids = List.range (evs.count .accept)
    ∧ (srvRun evs).ids.Nodup
    ∧ (srvRun evs).ids.Pairwise (· < ·) := by
  have hco := srvFold_no_clientExit evs { counter := 0, ids := [] } h
  have hids : (srvRun evs).ids = List.range (evs.count .accept) := by
    unfold srvRun
    rw [hco]
    simp [List.range_eq_range']
  refine ⟨hids, ?_, ?_⟩
  · rw [hids]; exact List.nodup_range _
  · rw [hids]; exact List.pairwise_lt_range _

theorem c1_connection_ids_amended_witness :
    (srvRun [SrvEvent.accept, .handshakeFailExit, .accept]).ids = List.range 2
    ∧ (srvRun [SrvEvent.accept, .handshakeFailExit, .accept]).ids.Nodup
    ∧ (srvRun [SrvEvent.accept, .handshakeFailExit, .accept]).ids.Pairwise (· < ·) := by
  exact c1_connection_ids_amended [SrvEvent.accept, .handshakeFailExit, .accept] (by decide)

/-- C2 counterexample: after 1001 publishes with the subscriber still at
position 0, the backlog (1001) exceeds the Hub capacity (1000), and the
next receive makes the delivery loop exit (`while let Ok` treats the
`Lagged` error as loop termination) instead of continuing. -/
theorem c2_lag_exit_counterexample :
    hubCapacity
        < (subRun hubCapacity (List.replicate 1001 HubEvent.publish)).total
          - (subRun hubCapacity (List.replicate 1001 HubEvent.publish)).pos
    ∧ (subRun hubCapacity (List.replicate 1001 HubEvent.publish)).exited = false
    ∧ (subRun hubCapacity
        (List.replicate 1001 HubEvent.publish ++ [HubEvent.recv])).exited = true := by
  have hp := subRun_publishes hubCapacity 1001
      { total := 0, pos := 0, exited := false, delivered := [] }
  refine ⟨?_, ?_, ?_⟩
  · unfold subRun; rw [hp]; decide
  · unfold subRun; rw [hp]
  · unfold subRun; rw [List.foldl_append, hp]; decide

/-- C2 (amended): when the unread backlog of a subscriber exceeds the Hub
capacity, the receiver is repositioned to the oldest still-buffered
message but the client delivery loop EXITS on the lag error rather than
continuing; the publish of the producer is always enabled and never blocks or
fails because of a slow consumer (it just appends, whatever the
position of the subscriber). -/
theorem c2_lag_amended (s : SubState) (h1 : s.exited = false)
    (h2 : hubCapacity < s.total - s.pos) :
    subStep hubCapacity s .recv = { s with pos := s.total - hubCapacity, exited := true }
    ∧ ∀ t : SubState, subStep hubCapacity t .publish = { t with total := t.total + 1 } := by
  constructor
  · have h3 : ¬ s.total ≤ s.pos := by omega
    simp [subStep, h1, h3, h2]
  · intro t; rfl

theorem c2_lag_amended_witness :
    subStep hubCapacity { total := 1001, pos := 0, exited := false, delivered := [] } .recv
      = { total := 1001, pos := 1, exited := true, delivered := [] }
    ∧ hubCapacity < 1001 - 0 := by
  have h := c2_lag_amended { total := 1001, pos := 0, exited := false, delivered := [] }
      rfl (by decide)
  exact ⟨h.1, by decide⟩

/-- C3 (code bug): on the realizable trace of one accepted connection
whose WebSocket handshake fails, the client task returns before the
`CONNECTION_COUNT.fetch_sub(1)`, so after all client tasks have exited
the counter is 1, not its prior value 0 — contradicting the claim and
the doc comment in the code itself that `get_active_connections` returns the
current number of active connections. -/
theorem c3_handshake_fail_counter_leak :
    validTrace [SrvEvent.accept, .handshakeFailExit] = true
    ∧ (srvRun [SrvEvent.accept, .handshakeFailExit]).counter = 1
    ∧ (srvRun [SrvEvent.accept, .handshakeFailExit]).counter ≠ 0 := by
  decide

/-- C7 counterexample: a client whose welcome send fails but whose next
send succeeds receives the relayed event although the welcome was never
successfully sent — the code only logs a warning on welcome-send failure
and enters the delivery loop anyway. -/
theorem c7_welcome_failure_counterexample :
    (handle_client_connection 7 true (fun n => decide (0 < n)) ["evt"]).delivered = ["evt"]
    ∧ (handle_client_connection 7 true (fun n => decide (0 < n)) ["evt"]).welcomeOk = false := by
  decide

/-- C7 (amended): the welcome payload is the first send ATTEMPTED on
every successfully handshaken connection — every relayed event send
comes after it, and the relayed sends are an initial segment of the
Hub messages — but a failed welcome send does not stop the delivery
loop (`welcomeOk` is just the outcome of that first send), so a client
may receive relayed events without the welcome having been successfully
sent; a failed handshake sends nothing at all. -/
theorem c7_welcome_amended (id : Nat) (sends : Nat → Bool) (msgs : List String) :
    (∃ n, n ≤ msgs.length ∧
      (handle_client_connection id true sends msgs).attempts
        = welcomeJson id :: msgs.take n)
    ∧ (handle_client_connection id true sends msgs).welcomeOk = sends 0
    ∧ (handle_client_connection id false sends msgs).attempts = [] := by
  refine ⟨?_, rfl, rfl⟩
  obtain ⟨n, hn, he⟩ := relayLoop_attempts_take sends msgs 1
  exact ⟨n, hn, by simp [handle_client_connection, he]⟩

end PumpWs

namespace PumpWs

/-- C4: for every frame whose method is `programNotification`, whose
account owner equals the target program id, and whose pubkey, slot and
account fields are well formed (the 8-byte prefix slice of the pubkey
succeeds), `parse_event` returns the serialized `TokenEvent` whose
`token.mint_address` is the input pubkey, whose `event_type` is
`token_created`, and whose `transaction_signature` is the 8-byte pubkey prefix, an underscore, and the slot number. -/
theorem c4_normalizer_fields (now : String) (parsed : Json) (pk p8 : String) (slot : Nat)
    (account : List (String × Json)) (ov : Json)
    (hm : (Json.index parsed "method").asStr = some "programNotification")
    (hpk : (Json.index (Json.index (Json.index (Json.index parsed "params") "result") "value") "pubkey").asStr = some pk)
    (hslot : (Json.index (Json.index (Json.index (Json.index parsed "params") "result") "context") "slot").asU64 = some slot)
    (hacct : (Json.index (Json.index (Json.index (Json.index parsed "params") "result") "value") "account").asObject = some account)
    (how : mapIndex account "owner" = .ok ov)
    (hos : ov.asStr = some pumpFunProgramId)
    (hslice : rustByteSlice pk 8 = .ok p8) :
    parse_event now (some parsed)
      = .ok (some (serializeTokenEvent (mkTokenEvent now p8 pk slot)))
    ∧ (mkTokenEvent now p8 pk slot).token.mint_address = pk
    ∧ (mkTokenEvent now p8 pk slot).event_type = "token_created"
    ∧ (mkTokenEvent now p8 pk slot).transaction_signature = p8 ++ "_" ++ toString slot := by
  refine ⟨?_, rfl, rfl, rfl⟩
  simp only [parse_event, hm, hpk, hslot, hacct, how, hos,
    extract_pump_fun_account_data, hslice]
  simp

theorem c4_normalizer_fields_witness :
    parse_event "2025-01-01T00:00:00+00:00" (some exampleFrame)
      = .ok (some (serializeTokenEvent
          (mkTokenEvent "2025-01-01T00:00:00+00:00" "ABCDEFGH" "ABCDEFGH1234" 100)))
    ∧ (mkTokenEvent "2025-01-01T00:00:00+00:00" "ABCDEFGH" "ABCDEFGH1234" 100).transaction_signature
        = "ABCDEFGH_100"
    ∧ (mkTokenEvent "2025-01-01T00:00:00+00:00" "ABCDEFGH" "ABCDEFGH1234" 100).token.mint_address
        = "ABCDEFGH1234" := by
  have h := c4_normalizer_fields "2025-01-01T00:00:00+00:00" exampleFrame "ABCDEFGH1234"
      "ABCDEFGH" 100 [("owner", Json.str pumpFunProgramId)] (Json.str pumpFunProgramId)
      rfl rfl rfl rfl rfl rfl rfl
  exact ⟨h.1, rfl, rfl⟩

/-- C5 (code bug): a `programNotification` frame with pubkey and slot
present whose account object lacks an `owner` key has no account owner
equal to the target program id, yet `parse_event` does not return none:
the `serde_json::Map` indexing `account["owner"]` panics with
"no entry found for key". -/
theorem c5_missing_owner_panic :
    (Json.index frameMissingOwner "method").asStr = some "programNotification"
    ∧ (Json.index (Json.index (Json.index (Json.index frameMissingOwner "params") "result") "value") "account").asObject = some []
    ∧ parse_event "2025-01-01T00:00:00+00:00" (some frameMissingOwner)
        = .error "no entry found for key"
    ∧ ∀ o : Option String,
        parse_event "2025-01-01T00:00:00+00:00" (some frameMissingOwner) ≠ .ok o := by
  refine ⟨rfl, rfl, rfl, ?_⟩
  intro o h
  rw [show parse_event "2025-01-01T00:00:00+00:00" (some frameMissingOwner)
      = .error "no entry found for key" from rfl] at h
  exact Except.noConfusion h

/-- C6 (code bug): for the text frame `frameShortPubkey2` (a matching
`programNotification` whose pubkey is shorter than 8 bytes) the
Connector publishes nothing: `parse_event` panics inside the spawned
task, so neither the normalized event nor the raw fallback reaches the
Hub — violating the exactly-one-publish-per-text-frame contract. -/
theorem c6_connector_panic_no_publish :
    (Json.index frameShortPubkey2 "method").asStr = some "programNotification"
    ∧ processTextFrame "2025-01-01T00:00:00+00:00" "rawtext" (some frameShortPubkey2)
        = .error "6 byte index out of bounds"
    ∧ ∀ l : List String,
        processTextFrame "2025-01-01T00:00:00+00:00" "rawtext" (some frameShortPubkey2)
          ≠ .ok l := by
  refine ⟨rfl, rfl, ?_⟩
  intro l h
  rw [show processTextFrame "2025-01-01T00:00:00+00:00" "rawtext" (some frameShortPubkey2)
      = .error "6 byte index out of bounds" from rfl] at h
  exact Except.noConfusion h

/-- C8: the retry protocol of the Connector — a connection-open failure is
followed by exactly the fixed 5-second sleep before the next connect
attempt; a subscription-send failure restarts from the connect step with
no sleep; a read error ends the read loop and restarts from the connect
step with no sleep (the read-loop actions are publishes only, never a
sleep); and every non-empty continuation begins with a connect
attempt. -/
theorem c8_retry_protocol (now : String) (rest : List ConnOutcome) (items : List ReadItem)
    (acts : List UpAction) (h : processItems now items = (acts, none)) :
    connectorRun now (.connectErr :: rest)
        = UpAction.connectAttempt :: .connectFailLog :: .sleep 5 :: connectorRun now rest
    ∧ connectorRun now (.subSendErr :: rest)
        = UpAction.connectAttempt :: .sendSub :: .subFailLog :: connectorRun now rest
    ∧ connectorRun now (.session items .readErr :: rest)
        = UpAction.connectAttempt :: .sendSub ::
            (acts ++ [UpAction.readErrLog, .reconnectLog] ++ connectorRun now rest)
    ∧ (∀ a ∈ acts, ∀ n, a ≠ UpAction.sleep n)
    ∧ (∀ (o : ConnOutcome) (r2 : List ConnOutcome),
        (connectorRun now (o :: r2)).head? = some .connectAttempt) := by
  refine ⟨rfl, rfl, ?_, ?_, ?_⟩
  · simp [connectorRun, h]
  · intro a ha n
    exact processItems_no_sleep now items a (by rw [h]; exact ha) n
  · intro o r2
    cases o with
    | connectErr => rfl
    | subSendErr => rfl
    | session its ending =>
      simp only [connectorRun]
      cases (processItems now its).2 <;> rfl

theorem c8_retry_protocol_witness :
    connectorRun "T" [ConnOutcome.connectErr]
        = [UpAction.connectAttempt, .connectFailLog, .sleep 5]
    ∧ connectorRun "T" [ConnOutcome.subSendErr]
        = [UpAction.connectAttempt, .sendSub, .subFailLog]
    ∧ connectorRun "T" [ConnOutcome.session [ReadItem.nonText] .readErr]
        = [UpAction.connectAttempt, .sendSub, .readErrLog, .reconnectLog] := by
  have h := c8_retry_protocol "T" [] [ReadItem.nonText] [] rfl
  exact ⟨h.1, h.2.1, h.2.2.1⟩

/-- C9: configuration loading fails when `SOLANA_RPC_WS` is absent or
when `SERVER_PORT` is present but unparsable as an unsigned 16-bit
integer, and succeeds with port 8765 when `SERVER_PORT` is absent. -/
theorem c9_config_loading (env : String → Option String) :
    (env "SOLANA_RPC_WS" = none → ∃ e, Config.from_env env = .error e)
    ∧ (∀ u s, env "SOLANA_RPC_WS" = some u → env "SERVER_PORT" = some s →
        parseU16 s = none → ∃ e, Config.from_env env = .error e)
    ∧ (∀ u, env "SOLANA_RPC_WS" = some u → env "SERVER_PORT" = none →
        Config.from_env env = .ok { solana_rpc_ws := u, server_port := 8765 }) := by
  refine ⟨?_, ?_, ?_⟩
  · intro h
    refine ⟨"SOLANA_RPC_WS must be set", ?_⟩
    unfold Config.from_env
    rw [h]
  · intro u s h1 h2 h3
    refine ⟨"called Result::unwrap() on an Err value: ParseIntError", ?_⟩
    unfold Config.from_env
    rw [h1, h2, Option.getD_some, h3]
  · intro u h1 h2
    unfold Config.from_env
    rw [h1, h2]
    rfl

theorem c9_config_loading_witness :
    (∃ e, Config.from_env envEmpty = .error e)
    ∧ (∃ e, Config.from_env envBadPort = .error e)
    ∧ Config.from_env envNoPort
        = .ok { solana_rpc_ws := "ws://example", server_port := 8765 } := by
  exact ⟨(c9_config_loading envEmpty).1 rfl,
    (c9_config_loading envBadPort).2.1 "ws://example" "notaport" rfl rfl rfl,
    (c9_config_loading envNoPort).2.2 "ws://example" rfl rfl⟩

/-- C10 (code bug): `parse_event` is not total — on a matching-owner
`programNotification` frame whose pubkey `AB` is shorter than 8 bytes,
the slice `pubkey[..8]` in `extract_pump_fun_account_data` is out of
bounds and the function panics instead of returning some or none. -/
theorem c10_short_pubkey_panic :
    (Json.index frameShortPubkey "method").asStr = some "programNotification"
    ∧ (Json.index (Json.index (Json.index (Json.index frameShortPubkey "params") "result") "value") "pubkey").asStr = some "AB"
    ∧ parse_event "2025-01-01T00:00:00+00:00" (some frameShortPubkey)
        = .error "6 byte index out of bounds"
    ∧ ∀ o : Option String,
        parse_event "2025-01-01T00:00:00+00:00" (some frameShortPubkey) ≠ .ok o := by
  refine ⟨rfl, rfl, rfl, ?_⟩
  intro o h
  rw [show parse_event "2025-01-01T00:00:00+00:00" (some frameShortPubkey)
      = .error "6 byte index out of bounds" from rfl] at h
  exact Except.noConfusion h

end PumpWs
